import Mathlib

/-!
Verification of the zeroclaw Ariadne agent tools.

This file gives a shallow embedding of the Python modules under
`tools/` and of the mode-detection logic in `validate_agent.py`,
and proves the behavioural properties stated about them.

Modelling conventions:
- Python strings are Lean `String`s; the Python string operations used by
  the source (`lower`, `strip`, slicing, substring containment) are
  re-implemented over `List Char` so that all definitions reduce in the
  kernel.
- Wall-clock timestamps (`datetime.now(...)`) are threaded as explicit
  `String` arguments; they are opaque data to every checked property.
- Files are modelled as `Option String` (missing, or present with the
  given content); a successful `exists()` check followed by a successful
  `read_text()` corresponds to `some content`.
- The SHA-256 digest (`hashlib.sha256(...).hexdigest()`) is an abstract
  function `String → String` supplied in the environment record: every
  property proved here is conditional only on whether the digest of the
  supplied credential equals the configured reference digest.
-/

/-! ## Python string primitives over character lists -/

/-- Python `str.lower()` (ASCII case mapping, as used by the source). -/
def pyLower (s : String) : String :=
  String.mk (s.data.map Char.toLower)

/-- Python `str.strip()`: remove leading and trailing whitespace. -/
def pyStrip (s : String) : String :=
  String.mk (((s.data.dropWhile Char.isWhitespace).reverse.dropWhile
    Char.isWhitespace).reverse)

/-- Python slicing `s[:n]` (by characters). -/
def pyTake (s : String) (n : Nat) : String :=
  String.mk (s.data.take n)

/-- Substring search over character lists: does `needle` occur inside
`haystack` as a contiguous run?  Mirrors Python `needle in haystack`. -/
def containsSub (needle haystack : List Char) : Bool :=
  match haystack with
  | [] => needle.isEmpty
  | c :: rest => needle.isPrefixOf (c :: rest) || containsSub needle rest

/-- Python `needle in haystack` for strings. -/
def pyContains (haystack needle : String) : Bool :=
  containsSub needle.data haystack.data

/-! ## StateOverrideTool (`tools/state_override.py`)

The authenticated override gateway.  The audit log (the file
`ariadne/memory/notes.md`, opened in append mode) is modelled as the list
of entries appended so far; `renderLog` produces the exact file content
those appends create. -/

namespace StateOverrideTool

/-- `_VALID_STATES` from the source (a `frozenset`; order is irrelevant,
we keep a list for decidable membership). -/
def _VALID_STATES : List String :=
  ["operational", "companion", "administrative"]

/-- One audit record, as written by `_audit(event, target_state, outcome)`
with the timestamp taken at the call. -/
structure AuditEntry where
  ts : String
  event : String
  target_state : String
  outcome : String
deriving DecidableEq

/-- The dict returned by `run`. -/
structure RunResult where
  status : String
  message : String
deriving DecidableEq

/-- Process environment and crypto surface of the tool:
`tokenHashEnv` is `os.environ.get("ARIADNE_ADMIN_TOKEN_HASH", "")`
(the empty string models both an absent and an empty variable, exactly as
the source's `.get(..., "")` does), and `sha256hex` abstracts
`hashlib.sha256(token.encode()).hexdigest()`. -/
structure Env where
  tokenHashEnv : String
  sha256hex : String → String

/-- `StateOverrideTool._validate_token`: fail closed when no hash is
configured, otherwise compare the supplied digest with the lower-cased
reference digest (`hmac.compare_digest` is equality; its constant-time
nature has no functional content). -/
def _validate_token (env : Env) (token : String) : Bool :=
  if env.tokenHashEnv = "" then
    false
  else
    env.sha256hex token == pyLower env.tokenHashEnv

/-- `StateOverrideTool._audit`: append one entry to the notes file. -/
def _audit (log : List AuditEntry) (ts event target_state outcome : String) :
    List AuditEntry :=
  log ++ [{ ts := ts, event := event, target_state := target_state,
            outcome := outcome }]

/-- The exact text `_audit` appends for one entry. -/
def renderEntry (e : AuditEntry) : String :=
  "\n\n---\n**" ++ e.ts ++ "** [admin-audit]\n\nEVENT: " ++ e.event ++
    "  \nTARGET_STATE: " ++ e.target_state ++ "  \nOUTCOME: " ++
    e.outcome ++ "\n"

/-- Content of the notes file produced by a sequence of `_audit` appends. -/
def renderLog (log : List AuditEntry) : String :=
  String.join (log.map renderEntry)

/-- `StateOverrideTool.run(target_state, auth_token)`.  Returns the result
dict together with the audit log after the call; `ts` is the timestamp the
call would stamp on an appended entry. -/
def run (env : Env) (ts : String) (log : List AuditEntry)
    (target_state auth_token : String) : RunResult × List AuditEntry :=
  if target_state ∉ _VALID_STATES then
    ({ status := "error",
       message := "Unknown state \x27" ++ target_state ++
         "\x27. Valid states: [\x27administrative\x27, \x27companion\x27, \x27operational\x27]" },
     log)
  else if !_validate_token env auth_token then
    ({ status := "error",
       message := "Authentication failed. Override rejected." },
     _audit log ts "OVERRIDE_REJECTED" target_state "invalid token")
  else
    ({ status := "ok",
       message := "State override to \x27" ++ target_state ++
         "\x27 authorized and logged." },
     _audit log ts "OVERRIDE_APPLIED" target_state "authorized")

/-- Environment with no reference digest configured (used as concrete
input for witnesses). -/
def envNoHash : Env := { tokenHashEnv := "", sha256hex := fun _ => "" }

/-- Environment with a configured reference digest, together with a
concrete digest function distinguishing one credential (used as concrete
input for witnesses). -/
def envWithHash : Env :=
  { tokenHashEnv := "ABC", sha256hex := fun s => if s = "good" then "abc" else "xyz" }

end StateOverrideTool

/-! ## Mode detection (`validate_agent.py`, `detect_mode_switch`)

The mode state machine: classify an input text against the current mode
using fixed-precedence substring rules.  The source iterates over each
phrase list and returns on the first hit; since every hit in one list
returns the same constant, this is `List.any`. -/

namespace validate_agent

def OPERATIONAL : String := "operational"

def COMPANION : String := "companion"

def ADMINISTRATIVE : String := "administrative"

def COMPANION_PHRASES : List String :=
  ["ariadne, companion mode", "switch to companion"]

def ADMINISTRATIVE_PHRASES : List String :=
  ["enter administrative mode", "ariadne, admin mode"]

def TASK_INDICATORS : List String :=
  ["code", "debug", "analyze", "plan", "budget",
   "architecture", "refactor", "profile", "optimize"]

/-- `detect_mode_switch(text, current)` from `validate_agent.py`. -/
def detect_mode_switch (text current : String) : String :=
  let lower := pyLower text
  if ADMINISTRATIVE_PHRASES.any (fun phrase => pyContains lower phrase) then
    ADMINISTRATIVE
  else if COMPANION_PHRASES.any (fun phrase => pyContains lower phrase) then
    COMPANION
  else if TASK_INDICATORS.any (fun kw => pyContains lower kw) then
    OPERATIONAL
  else
    current

end validate_agent

/-! ## ConstraintAuditTool (`tools/constraint_audit.py`)

The constraint compliance engine.  The workspace's file surface is the
pair of optional file contents the tool consults; `some content` models a
file whose `exists()` check and `read_text()` both succeed (the narrow
window in which a file passes `exists()` and then fails `read_text()`
with `OSError` is a filesystem race outside this single-writer model).
The report's wall-clock `timestamp` field carries no checked content and
is elided. -/

namespace ConstraintAuditTool

/-- `_DECLARED_CONSTRAINTS` from the source. -/
def _DECLARED_CONSTRAINTS : List String :=
  ["no_cross_state_context_leakage",
   "no_emotional_output_in_operational_state",
   "no_system_commands_outside_administrative_state",
   "no_explicit_content"]

/-- `_VERIFIABLE_VIA_GUARDRAILS` from the source. -/
def _VERIFIABLE_VIA_GUARDRAILS : List String :=
  ["no_explicit_content"]

/-- The file surface the tool reads: `agents/ariadne.yaml` and
`ai/ariadne/guardrails.ts`. -/
structure Workspace where
  agentYaml : Option String
  guardrails : Option String

/-- `ConstraintAuditTool._check_constraint`: status string of one
constraint given the file surface. -/
def _check_constraint (ws : Workspace) (constraint : String) : String :=
  match ws.agentYaml with
  | none => "unverifiable — agents/ariadne.yaml missing"
  | some yamlContent =>
    if constraint ∈ _VERIFIABLE_VIA_GUARDRAILS then
      match ws.guardrails with
      | none => "unverifiable — guardrails.ts missing"
      | some gContent =>
        if pyContains gContent "BANNED_PATTERNS" then "active"
        else "unverifiable — BANNED_PATTERNS not found in guardrails.ts"
    else
      if pyContains yamlContent constraint then "active"
      else "drift — \x27" ++ constraint ++ "\x27 not found in agents/ariadne.yaml"

/-- The report returned by `run` (wall-clock `timestamp` elided). -/
structure AuditReport where
  constraints : List (String × String)
  drift_detected : Bool
  summary : String

/-- `ConstraintAuditTool.run`.  The source's loop appends one
`(constraint, status)` record per declared constraint and latches `drift`
as soon as a status differs from `"active"`; that is a map plus an `any`. -/
def run (ws : Workspace) : AuditReport :=
  let results := _DECLARED_CONSTRAINTS.map (fun c => (c, _check_constraint ws c))
  let drift := results.any (fun r => r.2 != "active")
  { constraints := results,
    drift_detected := drift,
    summary :=
      if !drift then "All constraints active."
      else toString (results.countP (fun r => r.2 != "active")) ++
        " constraint(s) require attention." }

/-- The systemic status vocabulary (`active` / `drift` / `unverifiable`)
is the first word of the status string; detail follows an em dash. -/
def statusKind (s : String) : String :=
  String.mk (s.data.takeWhile (fun c => c ≠ ' '))

/-- Concrete `agents/ariadne.yaml` content containing every declared
constraint's name literal (used as concrete input below). -/
def yamlAllNames : String :=
  "constraints:\n  - no_cross_state_context_leakage\n  - no_emotional_output_in_operational_state\n  - no_system_commands_outside_administrative_state\n  - no_explicit_content\n"

/-- Concrete `ai/ariadne/guardrails.ts` content containing the marker
token (used as concrete input below). -/
def guardrailsWithMarker : String :=
  "export const BANNED_PATTERNS = [];\n"

/-- Workspace with both backing files missing (used as concrete input
below). -/
def wsMissing : Workspace := { agentYaml := none, guardrails := none }

/-- Workspace whose configuration contains every constraint name and
whose guardrails artifact carries the marker token (used as concrete
input below). -/
def wsFull : Workspace :=
  { agentYaml := some yamlAllNames, guardrails := some guardrailsWithMarker }

/-- Workspace whose configuration contains every constraint name but
whose guardrails artifact is missing (used as concrete input below). -/
def wsNoGuardrails : Workspace :=
  { agentYaml := some yamlAllNames, guardrails := none }

end ConstraintAuditTool

/-! ## SystemDiagnosticsTool (`tools/system_diagnostics.py`)

The diagnostics aggregator.  Its file surface is modelled by
`DiagWorkspace`; the `/proc`-based uptime arithmetic is wall-clock I/O
and enters the model only as the resulting value. -/

namespace SystemDiagnosticsTool

/-- `_EXPECTED_TOOLS` from the source. -/
def _EXPECTED_TOOLS : List String :=
  ["memory_query", "proposal_generator", "validation_workflow",
   "gentle_suggestion", "system_diagnostics", "state_override",
   "constraint_audit"]

/-- `_DECLARED_CONSTRAINTS` from the source (duplicated there from
`constraint_audit.py`). -/
def _DECLARED_CONSTRAINTS : List String :=
  ["no_cross_state_context_leakage",
   "no_emotional_output_in_operational_state",
   "no_system_commands_outside_administrative_state",
   "no_explicit_content"]

/-- The file surface and process state the tool reads:
`notesBytes = some n` models an existing `ariadne/memory/notes.md` of
`n` bytes; `proposalsMd` the count of `*.md` files when
`ariadne/proposals/` exists; `toolFilesPresent` the tool modules present
next to the running module; `uptime` the value the `/proc` computation
yields (`-1` on any exception). -/
structure DiagWorkspace where
  notesBytes : Option Nat
  proposalsMd : Option Nat
  toolFilesPresent : List String
  uptime : Int

/-- The snapshot returned by `run` (wall-clock `timestamp` elided;
`memory.notes_file` is a constant path string and elided). -/
structure Snapshot where
  state_stability : String
  notes_exists : Bool
  notes_bytes : Nat
  proposals_count : Nat
  tools : List (String × String)
  constraints : List (String × String)
  uptime_s : Int

/-- `SystemDiagnosticsTool._tool_availability`. -/
def _tool_availability (ws : DiagWorkspace) : List (String × String) :=
  _EXPECTED_TOOLS.map (fun t =>
    (t, if t ∈ ws.toolFilesPresent then "available" else "missing"))

/-- `SystemDiagnosticsTool._constraint_status`: a constant mapping —
every declared constraint is reported `"active"` without consulting any
file or the audit tool. -/
def _constraint_status : List (String × String) :=
  _DECLARED_CONSTRAINTS.map (fun c => (c, "active"))

/-- `SystemDiagnosticsTool.run`. -/
def run (ws : DiagWorkspace) : Snapshot :=
  { state_stability := "stable",
    notes_exists := ws.notesBytes.isSome,
    notes_bytes := ws.notesBytes.getD 0,
    proposals_count := ws.proposalsMd.getD 0,
    tools := _tool_availability ws,
    constraints := _constraint_status,
    uptime_s := ws.uptime }

/-- An empty workspace (no files at all; used as concrete input below).
Its constraint-audit view is `ConstraintAuditTool.wsMissing`. -/
def dwsEmpty : DiagWorkspace :=
  { notesBytes := none, proposalsMd := none, toolFilesPresent := [], uptime := -1 }

end SystemDiagnosticsTool

/-! ## Proposal pipeline: shared value model

The generator hands the validator a Python dict whose values are strings,
lists and dicts; `Val` is that value universe.  A dict is a key-ordered
association list (Python dicts preserve insertion order and have unique
keys; lookup takes the first match). -/

/-- Python values exchanged between the proposal tools. -/
inductive Val where
  | vstr : String → Val
  | vlist : List Val → Val
  | vdict : List (String × Val) → Val

/-- Dict lookup, `d.get(key)` / `d[key]`. -/
def dictGet (kvs : List (String × Val)) (key : String) : Option Val :=
  match kvs with
  | [] => none
  | (k, v) :: rest => if k = key then some v else dictGet rest key

/-- `key in d` for dicts. -/
def hasKey (kvs : List (String × Val)) (key : String) : Bool :=
  (dictGet kvs key).isSome

/-- Python truthiness of a value (`not x` in the source). -/
def truthy : Val → Bool
  | .vstr s => s ≠ ""
  | .vlist xs => !xs.isEmpty
  | .vdict kvs => !kvs.isEmpty

/-! ## ValidationWorkflowTool (`tools/validation_workflow.py`) -/

namespace ValidationWorkflowTool

/-- The expected types named in `_REQUIRED_FIELDS` (`str` or `list`). -/
inductive PyType where
  | tstr : PyType
  | tlist : PyType
deriving DecidableEq

/-- `_REQUIRED_FIELDS` from the source, in its (insertion-ordered)
iteration order. -/
def _REQUIRED_FIELDS : List (String × PyType) :=
  [("title", .tstr), ("phases", .tlist),
   ("resources", .tlist), ("validation_gates", .tlist)]

/-- `isinstance(v, expected_type)`. -/
def isInstance : Val → PyType → Bool
  | .vstr _, .tstr => true
  | .vlist _, .tlist => true
  | _, _ => false

/-- Errors appended by the validator; each constructor carries exactly
the data interpolated into the source's message string:
`missingField f`   — "Missing required field: \x27f\x27";
`wrongType f`      — "Field \x27f\x27 must be <type>, got <type>";
`emptyField f`     — "Field \x27f\x27 must not be empty";
`phaseNotDict i`   — "Phase[i] must be a dict";
`phaseMissingKeys i ks` — "Phase[i] missing keys: ks". -/
inductive VError where
  | missingField : String → VError
  | wrongType : String → VError
  | emptyField : String → VError
  | phaseNotDict : Nat → VError
  | phaseMissingKeys : Nat → List String → VError
deriving DecidableEq

/-- Warnings appended by the validator:
`phaseNoSteps i name` — "Phase[i] (\x27name\x27) has no steps";
`noResources`      — "No resources listed; verify no dependencies are missing";
`noValidationGates` — "No validation gates defined; consider adding test criteria". -/
inductive VWarning where
  | phaseNoSteps : Nat → String → VWarning
  | noResources : VWarning
  | noValidationGates : VWarning
deriving DecidableEq

/-- Errors contributed by one field of `_check_required_fields`:
missing key, wrong runtime type, or an empty required container
(the emptiness clause applies only when the expected type is `list`,
since `dict` never appears among the expected types). -/
def checkField (proposal : List (String × Val)) (field : String)
    (ty : PyType) : List VError :=
  match dictGet proposal field with
  | none => [VError.missingField field]
  | some v =>
    if !isInstance v ty then [VError.wrongType field]
    else if ty = .tlist && !truthy v then [VError.emptyField field]
    else []

/-- `ValidationWorkflowTool._check_required_fields`. -/
def _check_required_fields (proposal : List (String × Val)) : List VError :=
  (_REQUIRED_FIELDS.map (fun fe => checkField proposal fe.1 fe.2)).flatten

/-- The `\x27?\x27` default of `phase.get("name", "?")`, rendered for the
no-steps warning.  A present non-string name would render through Python
repr; no property checked here inspects that rendering. -/
def phaseName (kvs : List (String × Val)) : String :=
  match dictGet kvs "name" with
  | some (.vstr s) => s
  | some _ => "?"
  | none => "?"

/-- Body of the `for i, phase in enumerate(phases)` loop of
`_check_phases`, accumulating errors and warnings in loop order.
The source computes `missing` as the sorted set difference
`{name, steps, outputs} - phase.keys()`; filtering the alphabetically
ordered key list gives that same sorted list. -/
def checkPhasesList (ps : List Val) (i : Nat) : List VError × List VWarning :=
  match ps with
  | [] => ([], [])
  | p :: rest =>
    let tail := checkPhasesList rest (i + 1)
    match p with
    | .vdict kvs =>
      let missing := ["name", "outputs", "steps"].filter (fun k => !hasKey kvs k)
      let es :=
        if !missing.isEmpty then [VError.phaseMissingKeys i missing] else []
      let stepsTruthy :=
        match dictGet kvs "steps" with
        | some v => truthy v
        | none => false
      let ws :=
        if !stepsTruthy then [VWarning.phaseNoSteps i (phaseName kvs)] else []
      (es ++ tail.1, ws ++ tail.2)
    | _ => (VError.phaseNotDict i :: tail.1, tail.2)

/-- `ValidationWorkflowTool._check_phases`: a non-list argument was
already reported by `_check_required_fields` and contributes nothing. -/
def _check_phases (phases : Val) : List VError × List VWarning :=
  match phases with
  | .vlist ps => checkPhasesList ps 0
  | _ => ([], [])

/-- `ValidationWorkflowTool._check_resources`. -/
def _check_resources (resources : Val) : List VWarning :=
  match resources with
  | .vlist rs => if rs.isEmpty then [VWarning.noResources] else []
  | _ => []

/-- `ValidationWorkflowTool._check_validation_gates`. -/
def _check_validation_gates (gates : Val) : List VWarning :=
  match gates with
  | .vlist gs => if gs.isEmpty then [VWarning.noValidationGates] else []
  | _ => []

/-- The report returned by `run` (wall-clock `validated_at` elided). -/
structure Report where
  valid : Bool
  errors : List VError
  warnings : List VWarning
deriving DecidableEq

/-- `ValidationWorkflowTool.run(proposal)`.  The helpers receive
`proposal.get(field, [])` exactly as in the source; errors accumulate as
required-field errors then phase errors, warnings as phase warnings then
the resources warning then the gates warning. -/
def run (proposal : List (String × Val)) : Report :=
  let errors1 := _check_required_fields proposal
  let phasesResult := _check_phases ((dictGet proposal "phases").getD (.vlist []))
  let warnings2 := _check_resources ((dictGet proposal "resources").getD (.vlist []))
  let warnings3 :=
    _check_validation_gates ((dictGet proposal "validation_gates").getD (.vlist []))
  { valid := (errors1 ++ phasesResult.1).isEmpty,
    errors := errors1 ++ phasesResult.1,
    warnings := phasesResult.2 ++ warnings2 ++ warnings3 }

/-- Predicate on one phase dict: carries `name`, `steps`, `outputs` and
its `steps` value is truthy (the shape every well-formed phase has). -/
def phaseWellFormed : Val → Bool
  | .vdict kvs =>
    hasKey kvs "name" && hasKey kvs "outputs" && hasKey kvs "steps" &&
      (match dictGet kvs "steps" with
       | some v => truthy v
       | none => false)
  | _ => false

/-- A structurally complete proposal whose `resources` and
`validation_gates` are both empty lists (used as concrete input below). -/
def proposalEmptyLists : List (String × Val) :=
  [("title", .vstr "Test proposal"),
   ("phases", .vlist [.vdict
     [("name", .vstr "Analysis"),
      ("steps", .vlist [.vstr "Identify scope"]),
      ("outputs", .vlist [.vstr "scope_doc"])]]),
   ("resources", .vlist []),
   ("validation_gates", .vlist [])]

end ValidationWorkflowTool

/-! ## ProposalGeneratorTool (`tools/proposal_generator.py`) -/

namespace ProposalGeneratorTool

/-- The sentence delimiters of `re.split(r"[.!?\n]", description)`. -/
def sentenceDelims : List Char := ['.', '!', '?', '\n']

/-- `ProposalGeneratorTool._extract_title`: first sentence (the prefix
before the first delimiter), stripped, truncated to 80 characters, with
the truncated whole description as fallback. -/
def _extract_title (description : String) : String :=
  let first_sentence :=
    pyStrip (String.mk (description.data.takeWhile (fun c => c ∉ sentenceDelims)))
  if first_sentence ≠ "" then pyTake first_sentence 80
  else pyTake description 80

/-- `ProposalGeneratorTool._build_phases`: the fixed three-phase plan. -/
def _build_phases : List Val :=
  [.vdict
    [("name", .vstr "Analysis"),
     ("steps", .vlist
       [.vstr "Review task description and clarify scope.",
        .vstr "Identify dependencies and constraints.",
        .vstr "Document assumptions."]),
     ("outputs", .vlist [.vstr "scope_document"])],
   .vdict
    [("name", .vstr "Execution"),
     ("steps", .vlist
       [.vstr "Implement the changes described in the task.",
        .vstr "Write or update tests covering new behaviour.",
        .vstr "Commit with a descriptive message."]),
     ("outputs", .vlist [.vstr "implementation", .vstr "tests"])],
   .vdict
    [("name", .vstr "Validation"),
     ("steps", .vlist
       [.vstr "Run the relevant test suite.",
        .vstr "Confirm all validation gates pass.",
        .vstr "Peer-review or self-review the diff."]),
     ("outputs", .vlist [.vstr "validation_report"])]]

/-- `ProposalGeneratorTool._infer_resources`: two always-present
resources plus keyword-derived ones, in source append order. -/
def _infer_resources (description : String) : List String :=
  let lower := pyLower description
  ["repository_access", "test_runner"] ++
  (if ["database", "sqlite", "postgres", "mysql"].any
      (fun kw => pyContains lower kw) then ["database_access"] else []) ++
  (if ["api", "http", "rest", "endpoint"].any
      (fun kw => pyContains lower kw) then ["network_access"] else []) ++
  (if ["file", "read", "write", "disk"].any
      (fun kw => pyContains lower kw) then ["filesystem_access"] else [])

/-- `ProposalGeneratorTool._build_validation_gates`. -/
def _build_validation_gates (title : String) : List String :=
  ["All tests pass after implementing: " ++ title,
   "No regressions in existing test suite.",
   "Output matches expected schema.",
   "No security-policy violations detected."]

/-- `ProposalGeneratorTool.run(task_description)`; `none` models the
`ValueError` raised on an empty or whitespace-only description, and `ts`
is the wall-clock `generated_at` value. -/
def run (task_description : String) (ts : String) :
    Option (List (String × Val)) :=
  if task_description = "" ∨ pyStrip task_description = "" then none
  else
    let description := pyStrip task_description
    let title := _extract_title description
    some
      [("title", .vstr title),
       ("phases", .vlist _build_phases),
       ("resources", .vlist ((_infer_resources description).map .vstr)),
       ("validation_gates",
         .vlist ((_build_validation_gates title).map .vstr)),
       ("generated_at", .vstr ts)]

end ProposalGeneratorTool

/-! ## Theorems

One theorem (plus witness or counterexample where required) per claim,
with shared helper lemmas first. -/

namespace StateOverrideTool

/-- Appending audit entries appends their rendered text: the notes-file
content of a log extension extends the old content. -/
theorem renderLog_append (l1 l2 : List AuditEntry) :
    renderLog (l1 ++ l2) = renderLog l1 ++ renderLog l2 := by
  apply String.ext
  simp [renderLog, String.join_eq]

/-- C1: with no reference digest configured (the environment value absent
or empty), `run` with a syntactically valid target state returns status
`error` for every credential — the gateway is fail-closed — and appends
exactly one `OVERRIDE_REJECTED` audit record. -/
theorem C1_fail_closed (env : Env) (ts : String) (log : List AuditEntry)
    (target cred : String)
    (hnohash : env.tokenHashEnv = "")
    (hvalid : target ∈ _VALID_STATES) :
    (run env ts log target cred).1.status = "error" ∧
    (run env ts log target cred).2 =
      log ++ [{ ts := ts, event := "OVERRIDE_REJECTED", target_state := target,
                outcome := "invalid token" }] := by
  simp [run, _validate_token, _audit, hnohash, hvalid]

/-- C1 witness: concrete instance at a valid target state, an empty log
and an unconfigured digest. -/
theorem C1_witness :
    "operational" ∈ _VALID_STATES ∧
    ((run envNoHash "t0" [] "operational" "secret").1.status = "error" ∧
     (run envNoHash "t0" [] "operational" "secret").2 =
       [{ ts := "t0", event := "OVERRIDE_REJECTED", target_state := "operational",
          outcome := "invalid token" }]) :=
  ⟨by decide, C1_fail_closed envNoHash "t0" [] "operational" "secret" rfl (by decide)⟩

/-- C2: with a valid target state and a credential whose digest equals the
configured reference digest (compared against its lower-cased form, as the
source does), `run` returns `ok` and appends exactly one
`OVERRIDE_APPLIED` entry; with a valid target state and a non-matching
credential it returns `error` and appends exactly one `OVERRIDE_REJECTED`
entry; with an invalid target state it returns `error` and appends
nothing. -/
theorem C2_audit_discipline (env : Env) (ts : String) (log : List AuditEntry)
    (target cred : String) :
    (target ∈ _VALID_STATES → env.tokenHashEnv ≠ "" →
      env.sha256hex cred = pyLower env.tokenHashEnv →
      (run env ts log target cred).1.status = "ok" ∧
      (run env ts log target cred).2 =
        log ++ [{ ts := ts, event := "OVERRIDE_APPLIED", target_state := target,
                  outcome := "authorized" }]) ∧
    (target ∈ _VALID_STATES → env.tokenHashEnv ≠ "" →
      env.sha256hex cred ≠ pyLower env.tokenHashEnv →
      (run env ts log target cred).1.status = "error" ∧
      (run env ts log target cred).2 =
        log ++ [{ ts := ts, event := "OVERRIDE_REJECTED", target_state := target,
                  outcome := "invalid token" }]) ∧
    (target ∉ _VALID_STATES →
      (run env ts log target cred).1.status = "error" ∧
      (run env ts log target cred).2 = log) := by
  refine ⟨?_, ?_, ?_⟩
  · intro hv hconf hmatch
    simp [run, _validate_token, _audit, hv, hconf, hmatch]
  · intro hv hconf hmis
    simp [run, _validate_token, _audit, hv, hconf, hmis]
  · intro hv
    simp [run, hv]

/-- C2 witness: the three branches at concrete inputs — matching
credential, wrong credential, and unknown state. -/
theorem C2_witness :
    (((run envWithHash "t1" [] "companion" "good").1.status = "ok" ∧
      (run envWithHash "t1" [] "companion" "good").2 =
        [{ ts := "t1", event := "OVERRIDE_APPLIED", target_state := "companion",
           outcome := "authorized" }]) ∧
     ((run envWithHash "t1" [] "companion" "bad").1.status = "error" ∧
      (run envWithHash "t1" [] "companion" "bad").2 =
        [{ ts := "t1", event := "OVERRIDE_REJECTED", target_state := "companion",
           outcome := "invalid token" }]) ∧
     ((run envWithHash "t1" [] "bogus" "good").1.status = "error" ∧
      (run envWithHash "t1" [] "bogus" "good").2 = [])) :=
  ⟨(C2_audit_discipline envWithHash "t1" [] "companion" "good").1
      (by decide) (by decide) (by decide),
   (C2_audit_discipline envWithHash "t1" [] "companion" "bad").2.1
      (by decide) (by decide) (by decide),
   (C2_audit_discipline envWithHash "t1" [] "bogus" "good").2.2
      (by decide)⟩

/-- C9: the audit log is append-only — the notes-file content before any
`run` call is a prefix of the content after it; the log after the call is
the old log or the old log with one entry appended at the end, and with a
valid target state exactly one entry is appended. -/
theorem C9_append_only (env : Env) (ts : String) (log : List AuditEntry)
    (target cred : String) :
    ((renderLog log).data.isPrefixOf
        (renderLog (run env ts log target cred).2).data = true) ∧
    ((run env ts log target cred).2 = log ∨
      ∃ e, (run env ts log target cred).2 = log ++ [e]) ∧
    (target ∈ _VALID_STATES →
      ∃ e, (run env ts log target cred).2 = log ++ [e]) := by
  have hshape : (run env ts log target cred).2 = log ∨
      ∃ e, (run env ts log target cred).2 = log ++ [e] := by
    by_cases hv : target ∈ _VALID_STATES
    · by_cases ht : _validate_token env cred
      · exact Or.inr ⟨⟨ts, "OVERRIDE_APPLIED", target, "authorized"⟩,
          by simp [run, _audit, hv, ht]⟩
      · exact Or.inr ⟨⟨ts, "OVERRIDE_REJECTED", target, "invalid token"⟩,
          by simp [run, _audit, hv, ht]⟩
    · exact Or.inl (by simp [run, hv])
  refine ⟨?_, hshape, ?_⟩
  · rcases hshape with h | ⟨e, h⟩
    · simp [h, List.isPrefixOf_iff_prefix]
    · rw [h, renderLog_append]
      simp [List.isPrefixOf_iff_prefix]
  · intro hv
    rcases hshape with h | h
    · exfalso
      by_cases ht : _validate_token env cred
      · have heq : (run env ts log target cred).2 =
            _audit log ts "OVERRIDE_APPLIED" target "authorized" := by
          simp [run, hv, ht]
        rw [heq] at h
        simp [_audit] at h
      · have heq : (run env ts log target cred).2 =
            _audit log ts "OVERRIDE_REJECTED" target "invalid token" := by
          simp [run, hv, ht]
        rw [heq] at h
        simp [_audit] at h
    · exact h

/-- C9 witness: concrete call with a valid target state on an empty log. -/
theorem C9_witness :
    ((renderLog []).data.isPrefixOf
        (renderLog (run envNoHash "t2" [] "operational" "x").2).data = true) ∧
    ((run envNoHash "t2" [] "operational" "x").2 = [] ∨
      ∃ e, (run envNoHash "t2" [] "operational" "x").2 = [] ++ [e]) ∧
    (∃ e, (run envNoHash "t2" [] "operational" "x").2 = [] ++ [e]) :=
  ⟨(C9_append_only envNoHash "t2" [] "operational" "x").1,
   (C9_append_only envNoHash "t2" [] "operational" "x").2.1,
   (C9_append_only envNoHash "t2" [] "operational" "x").2.2 (by decide)⟩

end StateOverrideTool

namespace validate_agent

/-- C5: `detect_mode_switch` evaluates its rules in fixed precedence
order — an administrative phrase in the lower-cased text forces
`administrative` regardless of companion phrases or task keywords;
otherwise a companion phrase forces `companion`; otherwise a task keyword
forces `operational`; otherwise the current mode is returned unchanged. -/
theorem C5_precedence (text current : String) :
    (ADMINISTRATIVE_PHRASES.any (fun phrase => pyContains (pyLower text) phrase) = true →
      detect_mode_switch text current = ADMINISTRATIVE) ∧
    (ADMINISTRATIVE_PHRASES.any (fun phrase => pyContains (pyLower text) phrase) = false →
     COMPANION_PHRASES.any (fun phrase => pyContains (pyLower text) phrase) = true →
      detect_mode_switch text current = COMPANION) ∧
    (ADMINISTRATIVE_PHRASES.any (fun phrase => pyContains (pyLower text) phrase) = false →
     COMPANION_PHRASES.any (fun phrase => pyContains (pyLower text) phrase) = false →
     TASK_INDICATORS.any (fun kw => pyContains (pyLower text) kw) = true →
      detect_mode_switch text current = OPERATIONAL) ∧
    (ADMINISTRATIVE_PHRASES.any (fun phrase => pyContains (pyLower text) phrase) = false →
     COMPANION_PHRASES.any (fun phrase => pyContains (pyLower text) phrase) = false →
     TASK_INDICATORS.any (fun kw => pyContains (pyLower text) kw) = false →
      detect_mode_switch text current = current) := by
  refine ⟨?_, ?_, ?_, ?_⟩
  · intro h1
    simp [detect_mode_switch, h1]
  · intro h1 h2
    simp [detect_mode_switch, h1, h2]
  · intro h1 h2 h3
    simp [detect_mode_switch, h1, h2, h3]
  · intro h1 h2 h3
    simp [detect_mode_switch, h1, h2, h3]

/-- C5 witness: a text containing both an administrative phrase and the
task keyword `debug` resolves to `administrative` (step 1 wins). -/
theorem C5_witness :
    detect_mode_switch "enter administrative mode and debug the logs" OPERATIONAL
      = ADMINISTRATIVE ∧
    TASK_INDICATORS.any (fun kw =>
      pyContains (pyLower "enter administrative mode and debug the logs") kw) = true :=
  ⟨(C5_precedence "enter administrative mode and debug the logs" OPERATIONAL).1
      (by decide),
   by decide⟩

end validate_agent

namespace ConstraintAuditTool

/-- C6 counterexample: a configuration file containing every declared
constraint's name literal, with the guardrails artifact absent, still
yields `drift_detected = true` — the delegated constraint
`no_explicit_content` is checked against `guardrails.ts`, not against the
configuration's name literals, so the claim's example is false as
stated. -/
theorem C6_counterexample :
    (∀ c ∈ _DECLARED_CONSTRAINTS, pyContains yamlAllNames c = true) ∧
    (run wsNoGuardrails).drift_detected = true := by
  constructor
  · decide
  · decide

/-- C6 amended: `drift_detected` is true iff some constraint's status
differs from `active`; and auditing against a configuration containing
every declared constraint's name literal yields `drift_detected = false`
provided the guardrails artifact also exists and contains the
`BANNED_PATTERNS` marker. -/
theorem C6_drift_iff (ws : Workspace) :
    ((run ws).drift_detected = true ↔
      ∃ r ∈ (run ws).constraints, r.2 ≠ "active") ∧
    (∀ yamlContent gContent,
      ws.agentYaml = some yamlContent →
      ws.guardrails = some gContent →
      (∀ c ∈ _DECLARED_CONSTRAINTS, pyContains yamlContent c = true) →
      pyContains gContent "BANNED_PATTERNS" = true →
      (run ws).drift_detected = false) := by
  constructor
  · simp [run, List.any_eq_true, bne_iff_ne]
  · intro y g hy hg hall hbp
    have hc1 : pyContains y "no_cross_state_context_leakage" = true :=
      hall _ (by simp [_DECLARED_CONSTRAINTS])
    have hc2 : pyContains y "no_emotional_output_in_operational_state" = true :=
      hall _ (by simp [_DECLARED_CONSTRAINTS])
    have hc3 : pyContains y "no_system_commands_outside_administrative_state" = true :=
      hall _ (by simp [_DECLARED_CONSTRAINTS])
    simp [run, _DECLARED_CONSTRAINTS, _check_constraint, _VERIFIABLE_VIA_GUARDRAILS,
      hy, hg, hbp, hc1, hc2, hc3]

/-- C6 witness: a workspace whose configuration holds every constraint
name and whose guardrails artifact holds the marker shows no drift. -/
theorem C6_witness :
    (run wsFull).drift_detected = false :=
  (C6_drift_iff wsFull).2 yamlAllNames guardrailsWithMarker rfl rfl
    (by decide) (by decide)

/-- C7: when `agents/ariadne.yaml` is absent, every declared constraint —
the delegated one included, irrespective of the guardrails artifact `g` —
gets an `unverifiable` status, and `drift_detected = true`. -/
theorem C7_missing_config (g : Option String) :
    (∀ r ∈ (run { agentYaml := none, guardrails := g }).constraints,
      statusKind r.2 = "unverifiable") ∧
    (run { agentYaml := none, guardrails := g }).drift_detected = true := by
  constructor
  · intro r hr
    simp [run, _DECLARED_CONSTRAINTS, _check_constraint] at hr
    rcases hr with h | h | h | h <;> subst h <;> decide
  · simp [run, _DECLARED_CONSTRAINTS, _check_constraint]

/-- C7 witness: concrete record of the workspace with both files
missing. -/
theorem C7_witness :
    statusKind ("unverifiable — agents/ariadne.yaml missing") = "unverifiable" ∧
    (run wsMissing).drift_detected = true :=
  ⟨(C7_missing_config none).1 ("no_explicit_content",
      "unverifiable — agents/ariadne.yaml missing") (by decide),
   (C7_missing_config none).2⟩

end ConstraintAuditTool

/-- C8 counterexample: over the empty workspace (no files at all) the
diagnostics snapshot reports `no_explicit_content` as `active` while the
audit reports it `unverifiable`, so the constraints section does not
equal the audit result for that workspace state. -/
theorem C8_counterexample :
    (SystemDiagnosticsTool.run SystemDiagnosticsTool.dwsEmpty).constraints.lookup
        "no_explicit_content" = some "active" ∧
    (ConstraintAuditTool.run ConstraintAuditTool.wsMissing).constraints.lookup
        "no_explicit_content" = some "unverifiable — agents/ariadne.yaml missing" ∧
    (SystemDiagnosticsTool.run SystemDiagnosticsTool.dwsEmpty).constraints ≠
      (ConstraintAuditTool.run ConstraintAuditTool.wsMissing).constraints := by
  refine ⟨by decide, by decide, by decide⟩

/-- C8 amended: the diagnostics constraints section is the constant
all-`active` mapping and never consults the audit; it equals the audit
result exactly when the audit reports every constraint `active`, so drift
reported by the engine is not visible in diagnostics. -/
theorem C8_constants_vs_audit (dws : SystemDiagnosticsTool.DiagWorkspace)
    (ws : ConstraintAuditTool.Workspace) :
    (SystemDiagnosticsTool.run dws).constraints =
      SystemDiagnosticsTool._DECLARED_CONSTRAINTS.map (fun c => (c, "active")) ∧
    ((SystemDiagnosticsTool.run dws).constraints =
        (ConstraintAuditTool.run ws).constraints ↔
      ∀ r ∈ (ConstraintAuditTool.run ws).constraints, r.2 = "active") := by
  constructor
  · rfl
  · constructor
    · intro h r hr
      rw [← h] at hr
      simp [SystemDiagnosticsTool.run, SystemDiagnosticsTool._constraint_status,
        SystemDiagnosticsTool._DECLARED_CONSTRAINTS] at hr
      rcases hr with h1 | h1 | h1 | h1 <;> simp [h1]
    · intro h
      simp [ConstraintAuditTool.run, ConstraintAuditTool._DECLARED_CONSTRAINTS] at h
      simp [SystemDiagnosticsTool.run, SystemDiagnosticsTool._constraint_status,
        SystemDiagnosticsTool._DECLARED_CONSTRAINTS,
        ConstraintAuditTool.run, ConstraintAuditTool._DECLARED_CONSTRAINTS,
        h.1, h.2.1, h.2.2.1, h.2.2.2]

/-- C8 witness: against a fully compliant workspace the two sections do
agree. -/
theorem C8_witness :
    (SystemDiagnosticsTool.run SystemDiagnosticsTool.dwsEmpty).constraints =
      (ConstraintAuditTool.run ConstraintAuditTool.wsFull).constraints :=
  (C8_constants_vs_audit SystemDiagnosticsTool.dwsEmpty
    ConstraintAuditTool.wsFull).2.mpr (by decide)

namespace SystemDiagnosticsTool

/-- C10: for every workspace state, the diagnostics snapshot reports
`state_stability = "stable"` and status `active` for every one of the
four declared constraints; both fields are constants of the
implementation. -/
theorem C10_constant_health (ws : DiagWorkspace) :
    (run ws).state_stability = "stable" ∧
    (∀ c ∈ _DECLARED_CONSTRAINTS, (run ws).constraints.lookup c = some "active") ∧
    (run ws).constraints = _DECLARED_CONSTRAINTS.map (fun c => (c, "active")) := by
  refine ⟨rfl, ?_, rfl⟩
  intro c hc
  simp [_DECLARED_CONSTRAINTS] at hc
  rcases hc with h | h | h | h <;> subst h <;>
    simp [run, _constraint_status, _DECLARED_CONSTRAINTS, List.lookup]

/-- C10 witness: concrete instance on the empty workspace. -/
theorem C10_witness :
    (run dwsEmpty).state_stability = "stable" ∧
    (run dwsEmpty).constraints.lookup "no_explicit_content" = some "active" :=
  ⟨(C10_constant_health dwsEmpty).1,
   (C10_constant_health dwsEmpty).2.1 "no_explicit_content" (by decide)⟩

end SystemDiagnosticsTool

namespace ValidationWorkflowTool

/-- A list of well-formed phases (each a dict with `name`, `steps`,
`outputs` and truthy `steps`) contributes no error and no warning,
whatever the starting index. -/
theorem checkPhasesList_wellFormed (ps : List Val) (i : Nat)
    (h : ∀ p ∈ ps, phaseWellFormed p = true) :
    checkPhasesList ps i = ([], []) := by
  induction ps generalizing i with
  | nil => rfl
  | cons p rest ih =>
    have hp := h p (by simp)
    have htail := ih (i + 1) (fun q hq => h q (by simp [hq]))
    cases p with
    | vstr s => simp [phaseWellFormed] at hp
    | vlist l => simp [phaseWellFormed] at hp
    | vdict kvs =>
      simp [phaseWellFormed, Bool.and_eq_true] at hp
      obtain ⟨⟨⟨hn, ho⟩, hs⟩, hst⟩ := hp
      simp [checkPhasesList, htail, hn, ho, hs, hst]

/-- C3 counterexample: a proposal with a non-empty title and one
well-formed phase but empty `resources` and `validation_gates` lists is
reported invalid — `_check_required_fields` appends a
`must not be empty` error for each empty required list, so the claim that
these produce only warnings is false as stated. -/
theorem C3_counterexample :
    (run proposalEmptyLists).valid = false ∧
    VError.emptyField "resources" ∈ (run proposalEmptyLists).errors ∧
    VError.emptyField "validation_gates" ∈ (run proposalEmptyLists).errors := by
  refine ⟨by decide, by decide, by decide⟩

/-- C3 amended: for every proposal with a non-empty string title and a
non-empty list of well-formed phases, empty `resources` and empty
`validation_gates` lists each produce an error in addition to their
warning, so the report has `valid = false`; the errors are exactly the
two emptiness errors and the warnings exactly the two emptiness
warnings. -/
theorem C3_empty_lists_are_errors (title : String) (phases : List Val)
    (htitle : title ≠ "")
    (hne : phases ≠ [])
    (hwf : ∀ p ∈ phases, phaseWellFormed p = true) :
    run [("title", .vstr title), ("phases", .vlist phases),
         ("resources", .vlist []), ("validation_gates", .vlist [])] =
      { valid := false,
        errors := [VError.emptyField "resources",
                   VError.emptyField "validation_gates"],
        warnings := [VWarning.noResources, VWarning.noValidationGates] } := by
  simp [run, _check_required_fields, _REQUIRED_FIELDS, checkField, dictGet,
    isInstance, truthy, _check_phases, checkPhasesList_wellFormed phases 0 hwf,
    _check_resources, _check_validation_gates, htitle, hne]

/-- C3 witness: the amended statement at the concrete proposal with empty
resource and gate lists. -/
theorem C3_witness :
    run proposalEmptyLists =
      { valid := false,
        errors := [VError.emptyField "resources",
                   VError.emptyField "validation_gates"],
        warnings := [VWarning.noResources, VWarning.noValidationGates] } :=
  C3_empty_lists_are_errors "Test proposal"
    [.vdict [("name", .vstr "Analysis"),
             ("steps", .vlist [.vstr "Identify scope"]),
             ("outputs", .vlist [.vstr "scope_doc"])]]
    (by decide) (List.cons_ne_nil _ _) (by decide)

end ValidationWorkflowTool

/-- C4: round-trip — for every task description whose stripped form is
non-empty, generating a proposal and validating it yields `valid = true`
with no errors: pipeline-produced proposals always self-validate. -/
theorem C4_roundtrip (desc ts : String) (h : pyStrip desc ≠ "") :
    (ProposalGeneratorTool.run desc ts).map
      (fun p => ((ValidationWorkflowTool.run p).valid,
                 (ValidationWorkflowTool.run p).errors)) =
      some (true, []) := by
  have hne : ¬(desc = "" ∨ pyStrip desc = "") := by
    rintro (rfl | h2)
    · exact h rfl
    · exact h h2
  simp only [ProposalGeneratorTool.run, if_neg hne, Option.map_some]
  simp [ValidationWorkflowTool.run, ValidationWorkflowTool._check_required_fields,
    ValidationWorkflowTool._REQUIRED_FIELDS, ValidationWorkflowTool.checkField,
    dictGet, ValidationWorkflowTool.isInstance, truthy,
    ValidationWorkflowTool._check_phases, ValidationWorkflowTool.checkPhasesList,
    ValidationWorkflowTool.phaseName, hasKey,
    ValidationWorkflowTool._check_resources,
    ValidationWorkflowTool._check_validation_gates,
    ProposalGeneratorTool._build_phases, ProposalGeneratorTool._infer_resources,
    ProposalGeneratorTool._build_validation_gates]

/-- C4 witness: the round trip at a concrete description. -/
theorem C4_witness :
    pyStrip "Fix the bug" ≠ "" ∧
    (ProposalGeneratorTool.run "Fix the bug" "t3").map
      (fun p => ((ValidationWorkflowTool.run p).valid,
                 (ValidationWorkflowTool.run p).errors)) =
      some (true, []) :=
  ⟨by decide, C4_roundtrip "Fix the bug" "t3" (by decide)⟩
